import Mathlib

/-!
Shallow embedding of the AcaiaArduinoBLE scale client
(src/lib/AcaiaArduinoBLE/AcaiaArduinoBLE.cpp, NimBLE variant).

Modelling conventions:
* Machine time (`millis()`) is an explicit natural number `now`; the code's
  unsigned subtractions become truncated `Nat` subtraction.
* Bytes are naturals; the code's `& 0xff` masks become `% 256`; frames are
  `List ℕ` and out-of-range reads use `List.getD _ _ 0` (the source only
  reads indices its length guards have already established).
* Weights are exact rationals `ℚ`; the source's `pow(10, e)` division and
  decimal digit weights are the corresponding exact rational operations.
* Transport handles (`_pClient`, `_pService`, `_pWriteChar`, `_pReadChar`,
  `_pScan`) are modelled by presence booleans; the answers of the transport
  stack (connect, write, subscribe, service/characteristic lookup,
  `isConnected()` liveness queries) are an environment `Env` of booleans.
  Repeated liveness queries within one handler invocation are modelled by a
  single answer `clientConnected`.
* Each state handler returns the successor session state together with the
  list of command frames whose write was attempted during the call.
-/

namespace Acaia

/-- Scale protocol families (source `enum scale_type`). -/
inductive scale_type where
  | OLD
  | NEW
  | GENERIC
deriving DecidableEq, Repr

/-- Connection state machine states (source `enum ConnectionState` plus the
`CONN_RECONNECT_DELAY` state used by the implementation). -/
inductive ConnectionState where
  | CONN_IDLE
  | CONN_SCANNING
  | CONN_CONNECTING
  | CONN_DISCOVERING
  | CONN_SUBSCRIBING
  | CONN_IDENTIFYING
  | CONN_BATTERY
  | CONN_NOTIFICATIONS
  | CONN_CONNECTED
  | CONN_FAILED
  | CONN_RECONNECT_DELAY
deriving DecidableEq, Repr

/-- Heartbeat period in milliseconds (header `HEARTBEAT_PERIOD_MS`). -/
def HEARTBEAT_PERIOD_MS : ℕ := 2750

/-- Packet-freshness window in milliseconds (header `MAX_PACKET_PERIOD_MS`). -/
def MAX_PACKET_PERIOD_MS : ℕ := 8000

/-- The 20-byte identify command frame (source global `IDENTIFY`). -/
def IDENTIFY : List ℕ :=
  [0xef, 0xdd, 0x0b, 0x30, 0x31, 0x32, 0x33, 0x34, 0x35, 0x36,
   0x37, 0x38, 0x39, 0x30, 0x31, 0x32, 0x33, 0x34, 0x9a, 0x6d]

/-- The 7-byte heartbeat command frame (source global `HEARTBEAT`). -/
def HEARTBEAT : List ℕ := [0xef, 0xdd, 0x00, 0x02, 0x00, 0x02, 0x00]

/-- The 14-byte streaming-enable frame (source global `NOTIFICATION_REQUEST`). -/
def NOTIFICATION_REQUEST : List ℕ :=
  [0xef, 0xdd, 0x0c, 0x09, 0x00, 0x01, 0x01, 0x02, 0x02, 0x05, 0x03, 0x04, 0x15, 0x06]

/-- The 7-byte timer-start frame (source global `START_TIMER`). -/
def START_TIMER_FRAME : List ℕ := [0xef, 0xdd, 0x0d, 0x00, 0x00, 0x00, 0x00]

/-- The 7-byte timer-stop frame (source global `STOP_TIMER`). -/
def STOP_TIMER_FRAME : List ℕ := [0xef, 0xdd, 0x0d, 0x00, 0x02, 0x00, 0x02]

/-- The 7-byte timer-reset frame (source global `RESET_TIMER`). -/
def RESET_TIMER_FRAME : List ℕ := [0xef, 0xdd, 0x0d, 0x00, 0x01, 0x00, 0x01]

/-- The 6-byte Acaia tare frame (source global `TARE_ACAIA`). -/
def TARE_ACAIA : List ℕ := [0xef, 0xdd, 0x04, 0x00, 0x00, 0x00]

/-- The 1-byte generic tare frame (source global `TARE_GENERIC`). -/
def TARE_GENERIC : List ℕ := [0x54]

/-- Session state of the scale client: the member variables of class
`AcaiaArduinoBLE`, with the NimBLE handle pointers replaced by presence
booleans. -/
structure AcaiaArduinoBLE where
  currentWeight : ℚ
  lastHeartBeat : ℕ
  connected : Bool
  type : scale_type
  currentBattery : ℤ
  packetPeriod : ℕ
  lastPacket : ℕ
  isBrewing : Bool
  connState : ConnectionState
  connStateStart : ℕ
  connTimeout : ℕ
  mac : String
  pClient : Bool
  pService : Bool
  pWriteChar : Bool
  pReadChar : Bool
  pScan : Bool
  deviceFound : Bool
deriving DecidableEq, Repr

/-- Environment: the answers of the transport stack and the wall clock during
one call into the session.  Booleans answer, respectively: `isConnected()`
liveness queries, `writeValue` results, `createClient`, `connect`,
`subscribe`, the per-family service and characteristic lookups, and
`NimBLEDevice::getScan()`. -/
structure Env where
  now : ℕ
  clientConnected : Bool
  writeOk : Bool
  createClientOk : Bool
  connectOk : Bool
  subscribeOk : Bool
  oldServiceFound : Bool
  oldReadCharFound : Bool
  oldReadCharNotify : Bool
  oldWriteCharFound : Bool
  newServiceFound : Bool
  newReadCharFound : Bool
  newReadCharNotify : Bool
  newWriteCharFound : Bool
  genServiceFound : Bool
  genReadCharFound : Bool
  genReadCharNotify : Bool
  genWriteCharFound : Bool
  getScanOk : Bool
deriving DecidableEq, Repr

/-- Source `AcaiaArduinoBLE::transitionTo`: set the state, stamp the entry
time, and install the per-state timeout. -/
def transitionTo (s : AcaiaArduinoBLE) (now : ℕ) (newState : ConnectionState)
    (timeout : ℕ) : AcaiaArduinoBLE :=
  { s with connState := newState, connStateStart := now, connTimeout := timeout }

/-- Source `AcaiaArduinoBLE::isConnected`. -/
def isConnected (s : AcaiaArduinoBLE) : Bool :=
  s.connected

/-- Source `AcaiaArduinoBLE::getWeight`. -/
def getWeight (s : AcaiaArduinoBLE) : ℚ :=
  s.currentWeight

/-- Source `AcaiaArduinoBLE::batteryValue`. -/
def batteryValue (s : AcaiaArduinoBLE) : ℤ :=
  s.currentBattery

/-- Source `AcaiaArduinoBLE::setIsBrewing`. -/
def setIsBrewing (s : AcaiaArduinoBLE) (brewing : Bool) : AcaiaArduinoBLE :=
  { s with isBrewing := brewing }

/-- Source `AcaiaArduinoBLE::heartbeatRequired`. -/
def heartbeatRequired (s : AcaiaArduinoBLE) (now : ℕ) : Bool :=
  if s.type = .OLD ∨ s.type = .NEW then
    decide (now - s.lastHeartBeat > HEARTBEAT_PERIOD_MS)
  else
    false

/-- Source `AcaiaArduinoBLE::isConnecting`. -/
def isConnecting (s : AcaiaArduinoBLE) : Bool :=
  decide (s.connState ≠ .CONN_IDLE ∧ s.connState ≠ .CONN_CONNECTED ∧
          s.connState ≠ .CONN_FAILED)

/-- Source `AcaiaArduinoBLE::getConnectionState`. -/
def getConnectionState (s : AcaiaArduinoBLE) : ConnectionState :=
  s.connState

/-- Source `AcaiaArduinoBLE::getStateString`. -/
def getStateString (s : AcaiaArduinoBLE) : String :=
  match s.connState with
  | .CONN_IDLE => "Idle"
  | .CONN_SCANNING => "Scanning"
  | .CONN_CONNECTING => "Connecting"
  | .CONN_DISCOVERING => "Discovering"
  | .CONN_SUBSCRIBING => "Subscribing"
  | .CONN_IDENTIFYING => "Identifying"
  | .CONN_BATTERY => "Battery"
  | .CONN_NOTIFICATIONS => "Notifications"
  | .CONN_CONNECTED => "Connected"
  | .CONN_FAILED => "Failed"
  | .CONN_RECONNECT_DELAY => "Reconnect Delay"

/-- Source `AcaiaArduinoBLE::isScaleName`: compare the first five characters
(Arduino `substring(0, 5)`, clamped to the string length) against the six
supported prefixes, case-sensitively. -/
def isScaleName (name : List Char) : Bool :=
  let nameShort := name.take 5
  nameShort == "CINCO".toList || nameShort == "ACAIA".toList ||
  nameShort == "PYXIS".toList || nameShort == "LUNAR".toList ||
  nameShort == "PROCH".toList || nameShort == "FELIC".toList

/-- Source `AcaiaArduinoBLE::handleNotification`: decode one inbound frame
according to the selected scale type, updating the cached weight and the
packet timing fields; any frame that fails its family's shape guard is
dropped with no state change. -/
def handleNotification (s : AcaiaArduinoBLE) (now : ℕ) (pData : List ℕ) :
    AcaiaArduinoBLE :=
  if s.type = .NEW ∧ pData.length ≥ 13 ∧ pData.getD 2 0 = 0x0C ∧
      pData.getD 4 0 = 0x05 then
    { s with
      currentWeight :=
        ((((pData.getD 6 0 % 256) <<< 8) + pData.getD 5 0 % 256 : ℕ) : ℚ) /
            10 ^ pData.getD 9 0 *
          (if pData.getD 10 0 &&& 0x02 ≠ 0 then -1 else 1),
      packetPeriod := if s.lastPacket ≠ 0 then now - s.lastPacket else s.packetPeriod,
      lastPacket := now }
  else if s.type = .OLD ∧ pData.length ≥ 10 then
    { s with
      currentWeight :=
        ((((pData.getD 3 0 % 256) <<< 8) + pData.getD 2 0 % 256 : ℕ) : ℚ) /
            10 ^ pData.getD 6 0 *
          (if pData.getD 7 0 &&& 0x02 ≠ 0 then -1 else 1),
      packetPeriod := if s.lastPacket ≠ 0 then now - s.lastPacket else s.packetPeriod,
      lastPacket := now }
  else if s.type = .GENERIC ∧ pData.length ≥ 13 then
    { s with
      currentWeight :=
        (if pData.getD 2 0 = 0x2B then 1 else -1) *
          (((pData.getD 3 0 : ℚ) - 0x30) * 1000 + ((pData.getD 4 0 : ℚ) - 0x30) * 100 +
           ((pData.getD 5 0 : ℚ) - 0x30) * 10 + ((pData.getD 6 0 : ℚ) - 0x30) * 1 +
           ((pData.getD 7 0 : ℚ) - 0x30) * (1 / 10) +
           ((pData.getD 8 0 : ℚ) - 0x30) * (1 / 100)),
      packetPeriod := if s.lastPacket ≠ 0 then now - s.lastPacket else s.packetPeriod,
      lastPacket := now }
  else
    s

/-- The shape guard the selected family's decoder applies to an inbound
frame, read off the branch conditions of `handleNotification`. -/
def acceptsFrame (t : scale_type) (pData : List ℕ) : Bool :=
  match t with
  | .NEW =>
      decide (pData.length ≥ 13) && decide (pData.getD 2 0 = 0x0C) &&
        decide (pData.getD 4 0 = 0x05)
  | .OLD => decide (pData.length ≥ 10)
  | .GENERIC => decide (pData.length ≥ 13)

/-- Source `AcaiaArduinoBLE::newWeightAvailable`: the packet-freshness check
(force disconnect and `CONN_FAILED` when the last decoded frame is stale)
followed by the data-recency report. -/
def newWeightAvailable (s : AcaiaArduinoBLE) (now : ℕ) :
    AcaiaArduinoBLE × Bool :=
  if s.lastPacket ≠ 0 ∧ now - s.lastPacket > MAX_PACKET_PERIOD_MS then
    ({ s with connected := false, connState := .CONN_FAILED, lastPacket := 0 }, false)
  else
    (s, decide (s.lastPacket > 0))

/-- Source `AcaiaArduinoBLE::init`: reject unless the machine is in
`CONN_IDLE` or `CONN_FAILED`; otherwise reset the per-attempt fields, fetch
and start the scanner, and enter `CONN_SCANNING` with a 10 s timeout. -/
def init (s : AcaiaArduinoBLE) (e : Env) (mac : String) :
    AcaiaArduinoBLE × Bool :=
  if s.connState ≠ .CONN_IDLE ∧ s.connState ≠ .CONN_FAILED then
    (s, false)
  else
    let s1 := { s with mac := mac, lastPacket := 0, connected := false,
                       deviceFound := false }
    if !e.getScanOk then
      (s1, false)
    else
      (transitionTo { s1 with pScan := true } e.now .CONN_SCANNING 10000, true)

/-- Source `AcaiaArduinoBLE::tare`: guard on connectivity and handle
liveness, then write the type-appropriate tare frame; a failed write clears
the connected flag. -/
def tare (s : AcaiaArduinoBLE) (e : Env) : AcaiaArduinoBLE × Bool :=
  if !s.connected || !s.pWriteChar || !s.pClient || !e.clientConnected then
    (s, false)
  else if e.writeOk then
    (s, true)
  else
    ({ s with connected := false }, false)

/-- Source `AcaiaArduinoBLE::startTimer`. -/
def startTimer (s : AcaiaArduinoBLE) (e : Env) : AcaiaArduinoBLE × Bool :=
  if !s.connected || !s.pWriteChar || !s.pClient || !e.clientConnected then
    (s, false)
  else if e.writeOk then
    (s, true)
  else
    ({ s with connected := false }, false)

/-- Source `AcaiaArduinoBLE::stopTimer`. -/
def stopTimer (s : AcaiaArduinoBLE) (e : Env) : AcaiaArduinoBLE × Bool :=
  if !s.connected || !s.pWriteChar || !s.pClient || !e.clientConnected then
    (s, false)
  else if e.writeOk then
    (s, true)
  else
    ({ s with connected := false }, false)

/-- Source `AcaiaArduinoBLE::resetTimer`. -/
def resetTimer (s : AcaiaArduinoBLE) (e : Env) : AcaiaArduinoBLE × Bool :=
  if !s.connected || !s.pWriteChar || !s.pClient || !e.clientConnected then
    (s, false)
  else if e.writeOk then
    (s, true)
  else
    ({ s with connected := false }, false)

/-- Source `AcaiaArduinoBLE::heartbeat`: same guard as the other commands; a
successful write stamps `lastHeartBeat`, a failed one clears the connected
flag. -/
def heartbeat (s : AcaiaArduinoBLE) (e : Env) : AcaiaArduinoBLE × Bool :=
  if !s.connected || !s.pWriteChar || !s.pClient || !e.clientConnected then
    (s, false)
  else if e.writeOk then
    ({ s with lastHeartBeat := e.now }, true)
  else
    ({ s with connected := false }, false)

/-- Source `AcaiaArduinoBLE::requestBatterySync` (never called by the state
machine): records an unknown battery level and reports success. -/
def requestBatterySync (s : AcaiaArduinoBLE) : AcaiaArduinoBLE × Bool :=
  ({ s with currentBattery := 0 }, true)

/-- Source `AcaiaArduinoBLE::stateScanning`: leave for `CONN_CONNECTING`
once the scan callback has flagged a matching device. -/
def stateScanning (s : AcaiaArduinoBLE) (e : Env) :
    AcaiaArduinoBLE × List (List ℕ) :=
  if s.deviceFound then
    (transitionTo s e.now .CONN_CONNECTING 5000, [])
  else
    (s, [])

/-- Source `AcaiaArduinoBLE::stateConnecting`: create the client if needed,
then connect to the stored address; failure of either goes to `CONN_FAILED`. -/
def stateConnecting (s : AcaiaArduinoBLE) (e : Env) :
    AcaiaArduinoBLE × List (List ℕ) :=
  if !s.pClient && !e.createClientOk then
    (transitionTo s e.now .CONN_FAILED 0, [])
  else
    let s1 := { s with pClient := true }
    if e.connectOk then
      (transitionTo s1 e.now .CONN_DISCOVERING 5000, [])
    else
      (transitionTo { s1 with deviceFound := false } e.now .CONN_FAILED 0, [])

/-- Source `AcaiaArduinoBLE::stateDiscovering`: NimBLE discovers on connect,
so this stage only advances to `CONN_SUBSCRIBING`. -/
def stateDiscovering (s : AcaiaArduinoBLE) (e : Env) :
    AcaiaArduinoBLE × List (List ℕ) :=
  (transitionTo s e.now .CONN_SUBSCRIBING 5000, [])

/-- Source `AcaiaArduinoBLE::stateSubscribing`: probe the OLD, NEW and
GENERIC service/characteristic sets in order, selecting the scale type of
the first family whose read characteristic exists and can notify; then
subscribe.  Any missing handle, dead link or failed subscribe goes to
`CONN_FAILED`. -/
def stateSubscribing (s : AcaiaArduinoBLE) (e : Env) :
    AcaiaArduinoBLE × List (List ℕ) :=
  if !s.pClient || !e.clientConnected then
    (transitionTo s e.now .CONN_FAILED 0, [])
  else
    let s1 :=
      let sA := { s with pService := e.oldServiceFound }
      if e.oldServiceFound && e.oldReadCharFound && e.oldReadCharNotify then
        { sA with type := .OLD, pReadChar := true, pWriteChar := e.oldWriteCharFound }
      else sA
    let s2 :=
      if !s1.pReadChar then
        let sA := { s1 with pService := e.newServiceFound }
        if e.newServiceFound && e.newReadCharFound && e.newReadCharNotify then
          { sA with type := .NEW, pReadChar := true, pWriteChar := e.newWriteCharFound }
        else sA
      else s1
    let s3 :=
      if !s2.pReadChar then
        let sA := { s2 with pService := e.genServiceFound }
        if e.genServiceFound && e.genReadCharFound && e.genReadCharNotify then
          { sA with type := .GENERIC, pReadChar := true, pWriteChar := e.genWriteCharFound }
        else sA
      else s2
    if !s3.pReadChar || !s3.pWriteChar then
      (transitionTo s3 e.now .CONN_FAILED 0, [])
    else if !e.clientConnected then
      (transitionTo s3 e.now .CONN_FAILED 0, [])
    else if !e.subscribeOk then
      (transitionTo s3 e.now .CONN_FAILED 0, [])
    else if !s3.pReadChar || !s3.pWriteChar || !s3.pClient || !e.clientConnected then
      (transitionTo s3 e.now .CONN_FAILED 0, [])
    else
      (transitionTo s3 e.now .CONN_IDENTIFYING 5000, [])

/-- Source `AcaiaArduinoBLE::stateIdentifying`: re-validate the handles, hold
for the 200 ms settle delay, then write the identify frame and move to
`CONN_BATTERY`. -/
def stateIdentifying (s : AcaiaArduinoBLE) (e : Env) :
    AcaiaArduinoBLE × List (List ℕ) :=
  if !s.pWriteChar || !s.pClient || !e.clientConnected then
    (transitionTo s e.now .CONN_FAILED 0, [])
  else if e.now - s.connStateStart < 200 then
    (s, [])
  else if !e.writeOk then
    (transitionTo s e.now .CONN_FAILED 0, [IDENTIFY])
  else
    (transitionTo s e.now .CONN_BATTERY 2000, [IDENTIFY])

/-- Source `AcaiaArduinoBLE::stateBattery`: re-validate the handles, hold for
the 200 ms settle delay, then move straight to `CONN_NOTIFICATIONS`; the
battery request itself is skipped ("Battery request implementation can be
added later"), so no frame is written. -/
def stateBattery (s : AcaiaArduinoBLE) (e : Env) :
    AcaiaArduinoBLE × List (List ℕ) :=
  if !s.pWriteChar || !s.pClient || !e.clientConnected then
    (transitionTo s e.now .CONN_FAILED 0, [])
  else if e.now - s.connStateStart < 200 then
    (s, [])
  else
    (transitionTo s e.now .CONN_NOTIFICATIONS 2000, [])

/-- Source `AcaiaArduinoBLE::stateNotifications`: re-validate the handles,
hold for the 200 ms settle delay, write the streaming-enable frame, then
mark the session connected, stamp the heartbeat, zero the packet timer and
enter `CONN_CONNECTED`. -/
def stateNotifications (s : AcaiaArduinoBLE) (e : Env) :
    AcaiaArduinoBLE × List (List ℕ) :=
  if !s.pWriteChar || !s.pClient || !e.clientConnected then
    (transitionTo s e.now .CONN_FAILED 0, [])
  else if e.now - s.connStateStart < 200 then
    (s, [])
  else if !e.writeOk then
    (transitionTo s e.now .CONN_FAILED 0, [NOTIFICATION_REQUEST])
  else
    (transitionTo
      { s with connected := true, lastHeartBeat := e.now, lastPacket := 0 }
      e.now .CONN_CONNECTED 0, [NOTIFICATION_REQUEST])

/-- Source `AcaiaArduinoBLE::update`: the per-tick step.  First the
per-state deadline check (excluding the idle, connected, failed and
reconnect-delay states), then one bounded slice of the current state's
work; returns whether the machine is in `CONN_CONNECTED` afterwards,
alongside the frames written during the slice. -/
def update (s : AcaiaArduinoBLE) (e : Env) :
    AcaiaArduinoBLE × List (List ℕ) × Bool :=
  if (s.connState ≠ .CONN_IDLE ∧ s.connState ≠ .CONN_CONNECTED ∧
      s.connState ≠ .CONN_FAILED ∧ s.connState ≠ .CONN_RECONNECT_DELAY) ∧
      e.now - s.connStateStart > s.connTimeout then
    (transitionTo s e.now .CONN_FAILED 0, [], false)
  else
    match s.connState with
    | .CONN_IDLE => (s, [], false)
    | .CONN_SCANNING =>
        let r := stateScanning s e
        (r.1, r.2, decide (r.1.connState = .CONN_CONNECTED))
    | .CONN_CONNECTING =>
        let r := stateConnecting s e
        (r.1, r.2, decide (r.1.connState = .CONN_CONNECTED))
    | .CONN_DISCOVERING =>
        let r := stateDiscovering s e
        (r.1, r.2, decide (r.1.connState = .CONN_CONNECTED))
    | .CONN_SUBSCRIBING =>
        let r := stateSubscribing s e
        (r.1, r.2, decide (r.1.connState = .CONN_CONNECTED))
    | .CONN_IDENTIFYING =>
        let r := stateIdentifying s e
        (r.1, r.2, decide (r.1.connState = .CONN_CONNECTED))
    | .CONN_BATTERY =>
        let r := stateBattery s e
        (r.1, r.2, decide (r.1.connState = .CONN_CONNECTED))
    | .CONN_NOTIFICATIONS =>
        let r := stateNotifications s e
        (r.1, r.2, decide (r.1.connState = .CONN_CONNECTED))
    | .CONN_CONNECTED => (s, [], true)
    | .CONN_FAILED =>
        let s1 := { s with pClient := false, pService := false,
                           pWriteChar := false, pReadChar := false,
                           deviceFound := false, connected := false,
                           lastPacket := 0, packetPeriod := 0,
                           lastHeartBeat := 0 }
        let s2 := transitionTo s1 e.now .CONN_RECONNECT_DELAY 500
        (s2, [], decide (s2.connState = .CONN_CONNECTED))
    | .CONN_RECONNECT_DELAY =>
        if e.now - s.connStateStart < s.connTimeout then
          (s, [], decide (s.connState = .CONN_CONNECTED))
        else if e.getScanOk then
          let s1 := transitionTo { s with pScan := true } e.now .CONN_SCANNING 10000
          (s1, [], decide (s1.connState = .CONN_CONNECTED))
        else
          let s1 := transitionTo { s with pScan := false } e.now .CONN_IDLE 0
          (s1, [], decide (s1.connState = .CONN_CONNECTED))

/-- A baseline session state used to build the concrete test states below. -/
def baseState : AcaiaArduinoBLE :=
  { currentWeight := 999, lastHeartBeat := 0, connected := false, type := .NEW,
    currentBattery := 0, packetPeriod := 0, lastPacket := 0, isBrewing := false,
    connState := .CONN_IDLE, connStateStart := 0, connTimeout := 0, mac := "",
    pClient := false, pService := false, pWriteChar := false, pReadChar := false,
    pScan := false, deviceFound := false }

/-- A transport environment in which every operation succeeds and the NEW
service family is the one discovered; the clock reads 1000 ms. -/
def okEnv : Env :=
  { now := 1000, clientConnected := true, writeOk := true, createClientOk := true,
    connectOk := true, subscribeOk := true,
    oldServiceFound := false, oldReadCharFound := false, oldReadCharNotify := false,
    oldWriteCharFound := false,
    newServiceFound := true, newReadCharFound := true, newReadCharNotify := true,
    newWriteCharFound := true,
    genServiceFound := false, genReadCharFound := false, genReadCharNotify := false,
    genWriteCharFound := false, getScanOk := true }

/-- A session stuck mid-handshake, used to exercise the `init` reject path. -/
def busyState : AcaiaArduinoBLE :=
  { baseState with connState := .CONN_SCANNING, connStateStart := 500,
                   connTimeout := 10000 }

/-- A fully connected session with live handles, used for the command tests. -/
def cmdState : AcaiaArduinoBLE :=
  { baseState with connState := .CONN_CONNECTED, connected := true,
                   pClient := true, pWriteChar := true, pReadChar := true }

/-- An environment whose transport write fails while the link is still up. -/
def failWriteEnv : Env :=
  { okEnv with writeOk := false }

/-- A 3-byte frame, rejected by every family's shape guard. -/
def rejFrame : List ℕ := [0x01, 0x02, 0x03]

/-- A session whose selected type is the OLD family. -/
def oldState : AcaiaArduinoBLE := { baseState with type := .OLD }

/-- A session whose selected type is the GENERIC family. -/
def genState : AcaiaArduinoBLE := { baseState with type := .GENERIC }

/-- The spec's OLD-decode example: a 10-byte frame with bytes[2..3] =
(0x64, 0x00), byte[6] = 2, byte[7] = 0, giving +1.00 g. -/
def exOldFrame : List ℕ :=
  [0xef, 0xdd, 0x64, 0x00, 0x00, 0x00, 0x02, 0x00, 0x00, 0x00]

/-- An 11-byte frame carrying the same OLD payload as `exOldFrame`. -/
def cexFrame11 : List ℕ :=
  [0xef, 0xdd, 0x64, 0x00, 0x00, 0x00, 0x02, 0x00, 0x00, 0x00, 0x00]

/-- The spec's NEW-decode example: byte[2] = 0x0C, byte[4] = 0x05,
bytes[5..6] = (0xF4, 0x01) = 500, byte[9] = 2, byte[10] = 0x02,
giving -5.00 g. -/
def exNewFrame : List ℕ :=
  [0xef, 0xdd, 0x0c, 0x00, 0x05, 0xf4, 0x01, 0x00, 0x00, 0x02, 0x02, 0x00, 0x00]

/-- The spec's GENERIC-decode example: byte[2] = '+' and bytes[3..8] =
"012345", giving +123.45 g. -/
def exGenFrame : List ℕ :=
  [0x00, 0x00, 0x2b, 0x30, 0x31, 0x32, 0x33, 0x34, 0x35, 0x00, 0x00, 0x00, 0x00]

/-- A connected session whose only decoded frame arrived at t = 1 ms. -/
def staleState : AcaiaArduinoBLE :=
  { baseState with connState := .CONN_CONNECTED, connected := true,
                   pClient := true, pWriteChar := true, pReadChar := true,
                   lastPacket := 1 }

/-- A clock reading far beyond the freshness window after `staleState`'s
last packet. -/
def staleEnv : Env := { okEnv with now := 20000 }

/-- A session in the Battery handshake stage with live handles and its
settle delay already elapsed under `okEnv`. -/
def batState : AcaiaArduinoBLE :=
  { baseState with connState := .CONN_BATTERY, pClient := true,
                   pWriteChar := true, pReadChar := true, connStateStart := 0,
                   connTimeout := 2000 }

/-- A session in the Notifications handshake stage with live handles and its
settle delay already elapsed under `okEnv`. -/
def notifState : AcaiaArduinoBLE :=
  { baseState with connState := .CONN_NOTIFICATIONS, pClient := true,
                   pWriteChar := true, pReadChar := true, connStateStart := 0,
                   connTimeout := 2000 }

end Acaia

namespace Acaia

/-- Reading an in-range index of a byte list (all entries below 256) is
unchanged by the code's `& 0xff` mask. -/
theorem getD_mod256 (pData : List ℕ) (hb : ∀ b ∈ pData, b < 256)
    (i : ℕ) (hi : i < pData.length) : pData.getD i 0 % 256 = pData.getD i 0 := by
  have hmem : pData.getD i 0 ∈ pData := by
    rw [List.getD_eq_getElem _ _ hi]
    exact List.getElem_mem hi
  exact Nat.mod_eq_of_lt (hb _ hmem)

end Acaia

namespace Acaia

/-- C9: `isScaleName(name)` returns true iff the first 5 characters of `name`
case-sensitively equal one of CINCO, ACAIA, PYXIS, LUNAR, PROCH, FELIC; in
particular every name shorter than 5 characters returns false. -/
theorem isScaleName_prefix_allowlist (name : List Char) :
    (isScaleName name = true ↔
      name.take 5 ∈ [String.toList "CINCO", String.toList "ACAIA",
                     String.toList "PYXIS", String.toList "LUNAR",
                     String.toList "PROCH", String.toList "FELIC"]) ∧
    (name.length < 5 → isScaleName name = false) := by
  have hmem : isScaleName name = true ↔
      (name.take 5 = String.toList "CINCO" ∨ name.take 5 = String.toList "ACAIA" ∨
       name.take 5 = String.toList "PYXIS" ∨ name.take 5 = String.toList "LUNAR" ∨
       name.take 5 = String.toList "PROCH" ∨ name.take 5 = String.toList "FELIC") := by
    simp [isScaleName, or_assoc]
  constructor
  · simpa [List.mem_cons] using hmem
  · intro hlen
    rcases Bool.eq_false_or_eq_true (isScaleName name) with h | h
    swap
    · exact h
    · exfalso
      have hdisj := hmem.mp h
      have hlen5 : (name.take 5).length = 5 := by
        rcases hdisj with h1 | h1 | h1 | h1 | h1 | h1 <;> rw [h1] <;> rfl
      rw [List.length_take] at hlen5
      omega

/-- Witness for `isScaleName_prefix_allowlist` at the concrete names
"LUNAR-E5F2" (accepted) and "LUN" (too short, rejected). -/
theorem isScaleName_prefix_allowlist_witness :
    isScaleName ("LUNAR-E5F2".toList) = true ∧ isScaleName ("LUN".toList) = false := by
  constructor
  · exact (isScaleName_prefix_allowlist ("LUNAR-E5F2".toList)).1.mpr (by decide)
  · exact (isScaleName_prefix_allowlist ("LUN".toList)).2 (by decide)

/-- C4: while the state machine is anywhere other than `CONN_IDLE` or
`CONN_FAILED`, `init` rejects and returns the session completely unchanged
(in particular state, state-entry timestamp, and per-state timeout). -/
theorem init_rejected_when_busy (s : AcaiaArduinoBLE) (e : Env) (mac : String)
    (h1 : s.connState ≠ .CONN_IDLE) (h2 : s.connState ≠ .CONN_FAILED) :
    init s e mac = (s, false) := by
  simp [init, h1, h2]

/-- Witness for `init_rejected_when_busy` at a session mid-scan. -/
theorem init_rejected_when_busy_witness :
    busyState.connState = .CONN_SCANNING ∧
    init busyState okEnv "aa:bb:cc:dd:ee:ff" = (busyState, false) := by
  refine ⟨rfl, ?_⟩
  exact init_rejected_when_busy busyState okEnv "aa:bb:cc:dd:ee:ff"
    (by decide) (by decide)

/-- C5: for each of tare, startTimer, stopTimer, resetTimer and heartbeat,
when the liveness preconditions hold but the transport write fails, the
operation returns false, clears the connected flag (so `isConnected` reads
false afterwards), and leaves the connection state untouched (it does not
itself force `CONN_FAILED`). -/
theorem command_write_failure_disconnects (s : AcaiaArduinoBLE) (e : Env)
    (hc : s.connected = true) (hw : s.pWriteChar = true) (hp : s.pClient = true)
    (hl : e.clientConnected = true) (hfail : e.writeOk = false) :
    tare s e = ({ s with connected := false }, false) ∧
    startTimer s e = ({ s with connected := false }, false) ∧
    stopTimer s e = ({ s with connected := false }, false) ∧
    resetTimer s e = ({ s with connected := false }, false) ∧
    heartbeat s e = ({ s with connected := false }, false) ∧
    isConnected ({ s with connected := false }) = false ∧
    ({ s with connected := false } : AcaiaArduinoBLE).connState = s.connState := by
  simp [tare, startTimer, stopTimer, resetTimer, heartbeat, isConnected,
        hc, hw, hp, hl, hfail]

/-- Witness for `command_write_failure_disconnects` at a live connected
session whose transport write fails. -/
theorem command_write_failure_disconnects_witness :
    tare cmdState failWriteEnv = ({ cmdState with connected := false }, false) ∧
    heartbeat cmdState failWriteEnv = ({ cmdState with connected := false }, false) ∧
    ({ cmdState with connected := false } : AcaiaArduinoBLE).connState =
      .CONN_CONNECTED := by
  have h := command_write_failure_disconnects cmdState failWriteEnv
    rfl rfl rfl rfl rfl
  exact ⟨h.1, h.2.2.2.2.1, rfl⟩

/-- C6: any inbound frame that fails the selected scale type's shape guard
leaves the session state completely unchanged: same cached weight, same
last-packet timestamp, same inter-packet interval, same connected flag. -/
theorem rejected_frame_is_silent (s : AcaiaArduinoBLE) (now : ℕ)
    (pData : List ℕ) (hrej : acceptsFrame s.type pData = false) :
    handleNotification s now pData = s := by
  cases ht : s.type
  case OLD =>
    simp [acceptsFrame, ht] at hrej
    simp [handleNotification, ht, hrej]
  case NEW =>
    simp [acceptsFrame, ht] at hrej
    simp [handleNotification, ht, hrej]
    intro h1 h2 h3
    exact absurd h3 (hrej h1 h2)
  case GENERIC =>
    simp [acceptsFrame, ht] at hrej
    simp [handleNotification, ht, hrej]

/-- Witness for `rejected_frame_is_silent` at a 3-byte frame, rejected by
the NEW-type shape guard. -/
theorem rejected_frame_is_silent_witness :
    handleNotification baseState 77 rejFrame = baseState :=
  rejected_frame_is_silent baseState 77 rejFrame (by decide)

/-- C2 counterexample: the OLD decoder accepts an 11-byte frame (it sets
the weight and stamps the packet timer), so acceptance is not restricted to
frames of exactly 10 bytes. -/
theorem old_decoder_accepts_eleven_bytes :
    cexFrame11.length = 11 ∧ oldState.type = .OLD ∧ oldState.lastPacket = 0 ∧
    (handleNotification oldState 7 cexFrame11).lastPacket = 7 ∧
    (handleNotification oldState 7 cexFrame11).currentWeight = 1 := by
  refine ⟨rfl, rfl, rfl, ?_, ?_⟩ <;>
    norm_num [handleNotification, oldState, baseState, cexFrame11,
              Nat.shiftLeft_eq]

/-- C2 (amended): with the OLD family selected, a frame is accepted iff its
length is at least 10 bytes (not exactly 10), and on acceptance the weight
becomes ((byte[3] << 8) + byte[2]) / 10 ^ byte[6], negated when
byte[7] & 0x02 is set; a shorter frame changes nothing. -/
theorem old_decoder_spec (s : AcaiaArduinoBLE) (now : ℕ) (pData : List ℕ)
    (ht : s.type = .OLD) (hb : ∀ b ∈ pData, b < 256) :
    (10 ≤ pData.length →
      (handleNotification s now pData).currentWeight =
        (((pData.getD 3 0 <<< 8) + pData.getD 2 0 : ℕ) : ℚ) / 10 ^ pData.getD 6 0 *
          (if pData.getD 7 0 &&& 0x02 ≠ 0 then -1 else 1) ∧
      (handleNotification s now pData).lastPacket = now) ∧
    (pData.length < 10 → handleNotification s now pData = s) := by
  constructor
  · intro hlen
    have e2 := getD_mod256 pData hb 2 (by omega)
    have e3 := getD_mod256 pData hb 3 (by omega)
    simp only [List.getD_eq_getElem?_getD] at e2 e3
    constructor
    · simp [handleNotification, ht, hlen, e2, e3]
    · simp [handleNotification, ht, hlen]
  · intro hlen
    have hn : ¬ (pData.length ≥ 10) := by omega
    simp [handleNotification, ht, hn]

/-- Witness for `old_decoder_spec`: the spec's own example frame decodes to
+1.00 g and stamps the packet timer. -/
theorem old_decoder_spec_witness :
    (handleNotification oldState 5 exOldFrame).currentWeight = 1 ∧
    (handleNotification oldState 5 exOldFrame).lastPacket = 5 := by
  have h := (old_decoder_spec oldState 5 exOldFrame rfl (by decide)).1 (by decide)
  refine ⟨?_, h.2⟩
  rw [h.1]
  norm_num [exOldFrame, Nat.shiftLeft_eq]

/-- C7: with the NEW family selected, a frame is accepted iff it is at
least 13 bytes long with byte[2] = 0x0C and byte[4] = 0x05, and on
acceptance the weight becomes ((byte[6] << 8) + byte[5]) / 10 ^ byte[9],
negated when byte[10] & 0x02 is set; any other frame changes nothing. -/
theorem new_decoder_spec (s : AcaiaArduinoBLE) (now : ℕ) (pData : List ℕ)
    (ht : s.type = .NEW) (hb : ∀ b ∈ pData, b < 256) :
    ((13 ≤ pData.length ∧ pData.getD 2 0 = 0x0C ∧ pData.getD 4 0 = 0x05) →
      (handleNotification s now pData).currentWeight =
        (((pData.getD 6 0 <<< 8) + pData.getD 5 0 : ℕ) : ℚ) / 10 ^ pData.getD 9 0 *
          (if pData.getD 10 0 &&& 0x02 ≠ 0 then -1 else 1) ∧
      (handleNotification s now pData).lastPacket = now) ∧
    (¬ (13 ≤ pData.length ∧ pData.getD 2 0 = 0x0C ∧ pData.getD 4 0 = 0x05) →
      handleNotification s now pData = s) := by
  constructor
  · rintro ⟨hlen, h2, h4⟩
    have e5 := getD_mod256 pData hb 5 (by omega)
    have e6 := getD_mod256 pData hb 6 (by omega)
    simp only [List.getD_eq_getElem?_getD] at h2 h4 e5 e6
    constructor
    · simp [handleNotification, ht, hlen, h2, h4, e5, e6]
    · simp [handleNotification, ht, hlen, h2, h4]
  · intro hno
    simp only [List.getD_eq_getElem?_getD] at hno
    simp [handleNotification, ht]
    intro h1 h2 h3
    exact absurd ⟨h1, h2, h3⟩ hno

/-- Witness for `new_decoder_spec`: the spec's own example frame decodes to
-5.00 g and stamps the packet timer. -/
theorem new_decoder_spec_witness :
    (handleNotification baseState 42 exNewFrame).currentWeight = -5 ∧
    (handleNotification baseState 42 exNewFrame).lastPacket = 42 := by
  have h := (new_decoder_spec baseState 42 exNewFrame rfl (by decide)).1
    ⟨by decide, by decide, by decide⟩
  refine ⟨?_, h.2⟩
  rw [h.1]
  norm_num [exNewFrame, Nat.shiftLeft_eq]

/-- C8: with the GENERIC family selected, a frame is accepted iff it is at
least 13 bytes long; on acceptance the sign comes from byte[2] (ASCII '+'
gives +1, anything else -1) and the magnitude from the six ASCII digits at
bytes[3..8] weighted thousands down to hundredths (each digit minus '0');
any shorter frame changes nothing. -/
theorem generic_decoder_spec (s : AcaiaArduinoBLE) (now : ℕ) (pData : List ℕ)
    (ht : s.type = .GENERIC) (hb : ∀ b ∈ pData, b < 256) :
    (13 ≤ pData.length →
      (handleNotification s now pData).currentWeight =
        (if pData.getD 2 0 = 0x2B then 1 else -1) *
          (((pData.getD 3 0 : ℚ) - 0x30) * 1000 + ((pData.getD 4 0 : ℚ) - 0x30) * 100 +
           ((pData.getD 5 0 : ℚ) - 0x30) * 10 + ((pData.getD 6 0 : ℚ) - 0x30) * 1 +
           ((pData.getD 7 0 : ℚ) - 0x30) * (1 / 10) +
           ((pData.getD 8 0 : ℚ) - 0x30) * (1 / 100)) ∧
      (handleNotification s now pData).lastPacket = now) ∧
    (pData.length < 13 → handleNotification s now pData = s) := by
  constructor
  · intro hlen
    constructor
    · simp [handleNotification, ht, hlen]
    · simp [handleNotification, ht, hlen]
  · intro hlen
    have hn : ¬ (pData.length ≥ 13) := by omega
    simp [handleNotification, ht, hn]

/-- Witness for `generic_decoder_spec`: the spec's own example frame
('+' then digits "012345") decodes to +123.45 g and stamps the packet
timer. -/
theorem generic_decoder_spec_witness :
    (handleNotification genState 9 exGenFrame).currentWeight = 123.45 ∧
    (handleNotification genState 9 exGenFrame).lastPacket = 9 := by
  have h := (generic_decoder_spec genState 9 exGenFrame rfl (by decide)).1
    (by decide)
  refine ⟨?_, h.2⟩
  rw [h.1]
  norm_num [exGenFrame]

/-- C1 counterexample: with the session Connected and the last decoded
frame 19999 ms old (far beyond the 8000 ms freshness window), a call to
`update` returns the session unchanged, still reporting connected and the
state name "Connected" — the freshness check does not run inside `update`. -/
theorem update_connected_skips_freshness :
    staleState.connState = .CONN_CONNECTED ∧ staleState.connected = true ∧
    staleEnv.now - staleState.lastPacket > MAX_PACKET_PERIOD_MS ∧
    update staleState staleEnv = (staleState, [], true) ∧
    isConnected (update staleState staleEnv).1 = true ∧
    getStateString (update staleState staleEnv).1 = "Connected" := by
  refine ⟨rfl, rfl, by decide, by decide, by decide, ?_⟩
  have h : (update staleState staleEnv).1 = staleState := by decide
  rw [h]
  rfl

/-- C1 (amended): with the session Connected and the last decoded frame
older than the freshness window, the next call to `newWeightAvailable`
(where the packet-freshness check lives, not `update`) clears the connected
flag and moves the state to Failed. -/
theorem freshness_fires_in_newWeightAvailable (s : AcaiaArduinoBLE) (now : ℕ)
    (hcs : s.connState = .CONN_CONNECTED) (hc : s.connected = true)
    (hlp : s.lastPacket ≠ 0) (hstale : now - s.lastPacket > MAX_PACKET_PERIOD_MS) :
    isConnected (newWeightAvailable s now).1 = false ∧
    getStateString (newWeightAvailable s now).1 = "Failed" ∧
    (newWeightAvailable s now).2 = false := by
  simp [newWeightAvailable, isConnected, getStateString, hlp, hstale]

/-- Witness for `freshness_fires_in_newWeightAvailable` at the stale
connected session, 19999 ms after its last frame. -/
theorem freshness_fires_in_newWeightAvailable_witness :
    isConnected (newWeightAvailable staleState 20000).1 = false ∧
    getStateString (newWeightAvailable staleState 20000).1 = "Failed" ∧
    (newWeightAvailable staleState 20000).2 = false :=
  freshness_fires_in_newWeightAvailable staleState 20000 rfl rfl
    (by decide) (by decide)

/-- C3 counterexample: in the Battery sub-state with live handles and the
settle delay elapsed, the handler writes no frame at all (in particular no
21-byte battery query) and transitions straight to Notifications. -/
theorem battery_state_sends_no_frame :
    200 ≤ okEnv.now - batState.connStateStart ∧
    (stateBattery batState okEnv).2 = [] ∧
    (stateBattery batState okEnv).1.connState = .CONN_NOTIFICATIONS := by
  refine ⟨by decide, by decide, by decide⟩

/-- C3 (amended): whenever the Battery sub-state runs with live handles and
its 200 ms settle delay elapsed, it sends nothing and transitions directly
to the Notifications sub-state with a 2 s budget — the battery query is
unimplemented in this code. -/
theorem battery_state_skips_query (s : AcaiaArduinoBLE) (e : Env)
    (hw : s.pWriteChar = true) (hp : s.pClient = true)
    (hl : e.clientConnected = true) (hd : 200 ≤ e.now - s.connStateStart) :
    stateBattery s e = (transitionTo s e.now .CONN_NOTIFICATIONS 2000, []) := by
  have hlt : ¬ (e.now - s.connStateStart < 200) := by omega
  simp [stateBattery, hw, hp, hl, hlt]

/-- Witness for `battery_state_skips_query` at the concrete Battery-stage
session under the all-success environment. -/
theorem battery_state_skips_query_witness :
    stateBattery batState okEnv =
      (transitionTo batState okEnv.now .CONN_NOTIFICATIONS 2000, []) :=
  battery_state_skips_query batState okEnv rfl rfl rfl (by decide)

/-- The Scanning handler either leaves the session unchanged or moves it to
Connecting. -/
theorem stateScanning_cases (s : AcaiaArduinoBLE) (e : Env) :
    (stateScanning s e).1 = s ∨
    (stateScanning s e).1.connState = .CONN_CONNECTING := by
  unfold stateScanning
  split_ifs <;> simp [transitionTo]

/-- The Connecting handler always ends in Failed or Discovering. -/
theorem stateConnecting_cases (s : AcaiaArduinoBLE) (e : Env) :
    (stateConnecting s e).1.connState = .CONN_FAILED ∨
    (stateConnecting s e).1.connState = .CONN_DISCOVERING := by
  unfold stateConnecting
  split_ifs <;> simp [transitionTo]

/-- The Discovering handler always ends in Subscribing. -/
theorem stateDiscovering_cases (s : AcaiaArduinoBLE) (e : Env) :
    (stateDiscovering s e).1.connState = .CONN_SUBSCRIBING := by
  unfold stateDiscovering
  simp [transitionTo]

/-- The Subscribing handler always ends in Failed or Identifying. -/
theorem stateSubscribing_cases (s : AcaiaArduinoBLE) (e : Env) :
    (stateSubscribing s e).1.connState = .CONN_FAILED ∨
    (stateSubscribing s e).1.connState = .CONN_IDENTIFYING := by
  unfold stateSubscribing
  split_ifs <;> simp [transitionTo] <;> (try split_ifs) <;> simp [transitionTo]

/-- The Identifying handler leaves the session unchanged (settle delay) or
ends in Failed or Battery. -/
theorem stateIdentifying_cases (s : AcaiaArduinoBLE) (e : Env) :
    (stateIdentifying s e).1 = s ∨
    (stateIdentifying s e).1.connState = .CONN_FAILED ∨
    (stateIdentifying s e).1.connState = .CONN_BATTERY := by
  unfold stateIdentifying
  split_ifs <;> simp [transitionTo]

/-- The Battery handler leaves the session unchanged (settle delay) or ends
in Failed or Notifications. -/
theorem stateBattery_cases (s : AcaiaArduinoBLE) (e : Env) :
    (stateBattery s e).1 = s ∨
    (stateBattery s e).1.connState = .CONN_FAILED ∨
    (stateBattery s e).1.connState = .CONN_NOTIFICATIONS := by
  unfold stateBattery
  split_ifs <;> simp [transitionTo]

/-- The Notifications handler leaves the session unchanged (settle delay),
ends in Failed, or enters Connected with the packet timer cleared. -/
theorem stateNotifications_cases (s : AcaiaArduinoBLE) (e : Env) :
    (stateNotifications s e).1 = s ∨
    (stateNotifications s e).1.connState = .CONN_FAILED ∨
    ((stateNotifications s e).1.connState = .CONN_CONNECTED ∧
     (stateNotifications s e).1.lastPacket = 0) := by
  unfold stateNotifications
  split_ifs <;> simp [transitionTo]

/-- C10: every `update` step that moves the machine into Connected from
another state leaves the last-packet timestamp equal to zero, and the
freshness check in `newWeightAvailable` never fires while that timestamp is
zero — so a freshly connected session cannot be forced to disconnect or
Failed before its first decoded frame, however much time passes. -/
theorem connected_entry_resets_lastPacket (s : AcaiaArduinoBLE) (e : Env)
    (now : ℕ) :
    ((update s e).1.connState = .CONN_CONNECTED →
      s.connState = .CONN_CONNECTED ∨ (update s e).1.lastPacket = 0) ∧
    (s.lastPacket = 0 → newWeightAvailable s now = (s, false)) := by
  constructor
  · intro hconn
    by_cases hcs : s.connState = .CONN_CONNECTED
    · exact Or.inl hcs
    right
    by_cases hg : (s.connState ≠ .CONN_IDLE ∧ s.connState ≠ .CONN_CONNECTED ∧
        s.connState ≠ .CONN_FAILED ∧ s.connState ≠ .CONN_RECONNECT_DELAY) ∧
        e.now - s.connStateStart > s.connTimeout
    · unfold update at hconn
      rw [if_pos hg] at hconn
      simp [transitionTo] at hconn
    · unfold update at hconn ⊢
      rw [if_neg hg] at hconn ⊢
      revert hconn
      cases h : s.connState <;> intro hconn
      · simp [h] at hconn
      · rcases stateScanning_cases s e with hc | hc <;> simp [hc, h] at hconn
      · rcases stateConnecting_cases s e with hc | hc <;> simp [hc] at hconn
      · have hc := stateDiscovering_cases s e
        simp [hc] at hconn
      · rcases stateSubscribing_cases s e with hc | hc <;> simp [hc] at hconn
      · rcases stateIdentifying_cases s e with hc | hc | hc <;>
          simp [hc, h] at hconn
      · rcases stateBattery_cases s e with hc | hc | hc <;>
          simp [hc, h] at hconn
      · rcases stateNotifications_cases s e with hc | hc | hc
        · simp [hc, h] at hconn
        · simp [hc] at hconn
        · simpa using hc.2
      · exact absurd h hcs
      · simp [transitionTo] at hconn
      · split_ifs at hconn <;> simp [transitionTo, h] at hconn
  · intro h0
    simp [newWeightAvailable, h0]

/-- Witness for `connected_entry_resets_lastPacket`: the Notifications-stage
session enters Connected with a zero packet timer, and the freshness check
stays quiet on it even at t = 999999 ms. -/
theorem connected_entry_resets_lastPacket_witness :
    ((update notifState okEnv).1.connState = .CONN_CONNECTED ∧
     (update notifState okEnv).1.lastPacket = 0) ∧
    newWeightAvailable notifState 999999 = (notifState, false) := by
  have h := connected_entry_resets_lastPacket notifState okEnv 999999
  have hconn : (update notifState okEnv).1.connState = .CONN_CONNECTED := by
    decide
  have hne : notifState.connState ≠ .CONN_CONNECTED := by decide
  rcases h.1 hconn with hl | hl
  · exact absurd hl hne
  · exact ⟨⟨hconn, hl⟩, h.2 rfl⟩

end Acaia
